import Mathlib

/-!
Verification development for the live-vision-analyzer inference layer
(src-tauri/src: ollama_manager.rs, moondream_manager.rs, lib.rs).

Network effects (HTTP sends, body reads, process spawns, directory
creation) are shallowly embedded as explicit outcome values passed in as
environments; the control flow of each Rust function is translated
branch-for-branch.
-/

namespace LiveVision

/-! ## JSON value model (serde_json::Value) -/

/-- Model of serde_json::Value. Numbers are modelled as integers, which
covers every numeric literal the analysed code paths construct or test. -/
inductive JVal where
  | null : JVal
  | bool : Bool → JVal
  | num : Int → JVal
  | str : String → JVal
  | arr : List JVal → JVal
  | obj : List (String × JVal) → JVal

/-- The left brace character, written by code point. -/
def lbraceCh : Char := Char.ofNat 123

/-- The right brace character, written by code point. -/
def rbraceCh : Char := Char.ofNat 125

/-- The double-quote character. -/
def quoteCh : Char := Char.ofNat 34

/-- The backslash character. -/
def backslashCh : Char := Char.ofNat 92

/-- Drop leading JSON whitespace. -/
def skipWs : List Char → List Char
  | [] => []
  | c :: cs =>
    if c = ' ' || c = '\n' || c = '\t' || c = '\r' then skipWs cs else c :: cs

/-- Is the character an ASCII decimal digit? -/
def isDigitCh (c : Char) : Bool := '0' ≤ c && c ≤ '9'

/-- Split off a maximal run of leading digits. -/
def takeDigits : List Char → (List Char × List Char)
  | [] => ([], [])
  | c :: cs =>
    if isDigitCh c then
      let p := takeDigits cs
      (c :: p.1, p.2)
    else ([], c :: cs)

/-- Numeric value of a digit run. -/
def digitsToNat (ds : List Char) : Nat :=
  ds.foldl (fun a c => a * 10 + (c.toNat - 48)) 0

/-- Consume an expected literal tail (such as "ull" after the n of null). -/
def dropLit : List Char → List Char → Option (List Char)
  | cs, [] => some cs
  | [], _ :: _ => none
  | c :: cs, l :: ls => if c = l then dropLit cs ls else none

/-- Parse the body of a JSON string literal (the opening quote already
consumed), handling backslash escapes; returns the content characters and
the remainder after the closing quote. -/
def parseStrChars (fuel : Nat) (cs : List Char) : Option (List Char × List Char) :=
  match fuel with
  | 0 => none
  | Nat.succ f =>
    match cs with
    | [] => none
    | c :: rest =>
      if c = quoteCh then some ([], rest)
      else if c = backslashCh then
        match rest with
        | [] => none
        | e :: rest2 =>
          match parseStrChars f rest2 with
          | some (s, r) =>
            let ec := if e = 'n' then '\n' else if e = 't' then '\t'
                      else if e = 'r' then '\r' else e
            some (ec :: s, r)
          | none => none
      else
        match parseStrChars f rest with
        | some (s, r) => some (c :: s, r)
        | none => none

mutual

/-- Fuel-indexed recursive-descent JSON value parser, modelling
serde_json. Returns the parsed value and the unconsumed remainder. -/
def parseVal : Nat → List Char → Option (JVal × List Char)
  | 0, _ => none
  | Nat.succ f, cs0 =>
    match skipWs cs0 with
    | [] => none
    | c :: rest =>
      if c = quoteCh then
        match parseStrChars (rest.length + 1) rest with
        | some (s, r) => some (JVal.str (String.mk s), r)
        | none => none
      else if c = lbraceCh then parseObj f (skipWs rest)
      else if c = '[' then parseArr f (skipWs rest)
      else if c = 'n' then
        match dropLit rest ['u', 'l', 'l'] with
        | some r => some (JVal.null, r)
        | none => none
      else if c = 't' then
        match dropLit rest ['r', 'u', 'e'] with
        | some r => some (JVal.bool true, r)
        | none => none
      else if c = 'f' then
        match dropLit rest ['a', 'l', 's', 'e'] with
        | some r => some (JVal.bool false, r)
        | none => none
      else if c = '-' then
        match takeDigits rest with
        | ([], _) => none
        | (ds, r) => some (JVal.num (-(digitsToNat ds : Int)), r)
      else if isDigitCh c then
        let p := takeDigits (c :: rest)
        some (JVal.num (digitsToNat p.1 : Int), p.2)
      else none

/-- Parse the inside of a JSON object, the opening brace and leading
whitespace already consumed. -/
def parseObj : Nat → List Char → Option (JVal × List Char)
  | 0, _ => none
  | Nat.succ f, cs =>
    match cs with
    | [] => none
    | c :: rest =>
      if c = rbraceCh then some (JVal.obj [], rest)
      else
        match parseMembers f cs with
        | some (fs, r) => some (JVal.obj fs, r)
        | none => none

/-- Parse one or more key-value members followed by the closing brace. -/
def parseMembers : Nat → List Char → Option (List (String × JVal) × List Char)
  | 0, _ => none
  | Nat.succ f, cs =>
    match skipWs cs with
    | [] => none
    | c :: rest =>
      if c = quoteCh then
        match parseStrChars (rest.length + 1) rest with
        | some (k, r1) =>
          match skipWs r1 with
          | [] => none
          | c2 :: r2 =>
            if c2 = ':' then
              match parseVal f r2 with
              | some (v, r3) =>
                match skipWs r3 with
                | [] => none
                | c3 :: r4 =>
                  if c3 = ',' then
                    match parseMembers f r4 with
                    | some (fs, r5) => some ((String.mk k, v) :: fs, r5)
                    | none => none
                  else if c3 = rbraceCh then some ([(String.mk k, v)], r4)
                  else none
              | none => none
            else none
        | none => none
      else none

/-- Parse the inside of a JSON array, the opening bracket and leading
whitespace already consumed. -/
def parseArr : Nat → List Char → Option (JVal × List Char)
  | 0, _ => none
  | Nat.succ f, cs =>
    match cs with
    | [] => none
    | c :: rest =>
      if c = ']' then some (JVal.arr [], rest)
      else
        match parseItems f cs with
        | some (xs, r) => some (JVal.arr xs, r)
        | none => none

/-- Parse one or more array items followed by the closing bracket. -/
def parseItems : Nat → List Char → Option (List JVal × List Char)
  | 0, _ => none
  | Nat.succ f, cs =>
    match parseVal f cs with
    | some (v, r) =>
      match skipWs r with
      | [] => none
      | c :: r2 =>
        if c = ',' then
          match parseItems f r2 with
          | some (xs, r3) => some (v :: xs, r3)
          | none => none
        else if c = ']' then some ([v], r2)
        else none
    | none => none

end

/-- Model of serde_json from_str on a whole input string: one JSON value,
with only whitespace allowed around it (serde rejects trailing content). -/
def parseJson (s : String) : Option JVal :=
  match parseVal (4 * s.toList.length + 8) s.toList with
  | some (v, r) => if (skipWs r).isEmpty then some v else none
  | none => none

/-- Model of indexing a serde_json Value with a field name: returns the
field of an object when present, Null otherwise. -/
def jGet : JVal → String → JVal
  | JVal.obj fs, k =>
    match fs.find? (fun p => p.1 = k) with
    | some p => p.2
    | none => JVal.null
  | _, _ => JVal.null

/-- Model of Value.as_str. -/
def jStr : JVal → Option String
  | JVal.str s => some s
  | _ => none

/-- Model of Value.as_f64 restricted to the integer numbers of this model. -/
def jNumQ : JVal → Option Int
  | JVal.num n => some n
  | _ => none

mutual

/-- Model of Debug formatting of a serde_json Value (the code only embeds
the produced text in human-readable summaries; no theorem depends on the
exact rendering). -/
def fmtDebug : JVal → String
  | JVal.null => "Null"
  | JVal.bool b => "Bool(" ++ toString b ++ ")"
  | JVal.num n => "Number(" ++ toString n ++ ")"
  | JVal.str s => "String(" ++ s ++ ")"
  | JVal.arr xs => "Array [" ++ fmtDebugList xs ++ "]"
  | JVal.obj fs => "Object " ++ String.singleton lbraceCh ++ fmtDebugFields fs ++ String.singleton rbraceCh

/-- Debug formatting of an array body. -/
def fmtDebugList : List JVal → String
  | [] => ""
  | [x] => fmtDebug x
  | x :: xs => fmtDebug x ++ ", " ++ fmtDebugList xs

/-- Debug formatting of an object body. -/
def fmtDebugFields : List (String × JVal) → String
  | [] => ""
  | [(k, v)] => k ++ ": " ++ fmtDebug v
  | (k, v) :: fs => k ++ ": " ++ fmtDebug v ++ ", " ++ fmtDebugFields fs

end

/-! ## Substring containment (Rust str::contains with a string pattern) -/

/-- Does the list start with the given pattern? -/
def startsWithL : List Char → List Char → Bool
  | _, [] => true
  | [], _ :: _ => false
  | a :: as2, b :: bs => (a = b) && startsWithL as2 bs

/-- Does the list contain the pattern as a contiguous run? -/
def containsSubL : List Char → List Char → Bool
  | [], pat => pat.isEmpty
  | s@(_ :: rest), pat => startsWithL s pat || containsSubL rest pat

/-- Model of Rust str::contains with a string pattern: contiguous
substring containment. -/
def strContains (s pat : String) : Bool :=
  containsSubL s.toList pat.toList

/-! ## ollama_manager.rs -/

/-- OllamaStatus (ollama_manager.rs lines 8-13). -/
structure OllamaStatus where
  running : Bool
  model_ready : Bool
  error : Option String

/-- Outcome of the GET to the /api/tags catalog endpoint as seen by
check_status: a transport failure (connection refused or timeout) with
its message, or an HTTP response with a success flag, its status text,
and the body text when it could be read (none when reading it fails,
which the code defaults to the empty string). -/
inductive TagsProbe where
  | err : String → TagsProbe
  | resp : Bool → String → Option String → TagsProbe

/-- OllamaManager::check_status (ollama_manager.rs lines 167-213):
classifies the catalog probe outcome into an OllamaStatus. -/
def check_status : TagsProbe → OllamaStatus
  | TagsProbe.err e =>
    { running := false, model_ready := false
      error := some ("Ollama server not responding: " ++ e) }
  | TagsProbe.resp success statusText body =>
    if success then
      let b := body.getD ""
      let model_ready := strContains b "llava:7b" || strContains b "llava:" ||
                         strContains b "llama3.2-vision"
      { running := true, model_ready := model_ready, error := none }
    else
      { running := false, model_ready := false
        error := some ("Ollama server returned: " ++ statusText) }

/-- The supervisor state: the held child-process handle
(OllamaManager.process, a pid when live). The data directory is fixed
configuration and plays no role in the verified claims. -/
structure OllamaMgr where
  process : Option Nat

/-- Environment of one call to OllamaManager::start, giving the outcome
of each external effect in the order the code performs them: the
GET /api/version liveness probe, download_ollama, create_dir_all on the
models directory, and Command::spawn (yielding the child pid). -/
structure StartEnv where
  versionProbeOk : Bool
  download : Except String Unit
  mkdirModels : Except String Unit
  spawn : Except String Nat

/-- Result of one start call: the returned value, the supervisor state
after the call, and how many OS processes the call spawned. -/
structure StartOutcome where
  result : Except String Unit
  state : OllamaMgr
  spawned : Nat

/-- OllamaManager::start (ollama_manager.rs lines 93-133), translated
branch-for-branch: return Ok at once if a handle is held; return Ok
without spawning if the liveness probe answers successfully; otherwise
download the binary, create the models directory, spawn the server, and
record the handle, propagating the first failure. -/
def start (st : OllamaMgr) (env : StartEnv) : StartOutcome :=
  match st.process with
  | some _ => { result := Except.ok (), state := st, spawned := 0 }
  | none =>
    if env.versionProbeOk then
      { result := Except.ok (), state := st, spawned := 0 }
    else
      match env.download with
      | Except.error e => { result := Except.error e, state := st, spawned := 0 }
      | Except.ok _ =>
        match env.mkdirModels with
        | Except.error e => { result := Except.error e, state := st, spawned := 0 }
        | Except.ok _ =>
          match env.spawn with
          | Except.error e =>
            { result := Except.error ("Failed to start Ollama: " ++ e)
              state := st, spawned := 0 }
          | Except.ok pid =>
            { result := Except.ok (), state := { process := some pid }, spawned := 1 }

/-! ## moondream_manager.rs -/

/-- AnalysisResult (moondream_manager.rs lines 72-80). -/
structure AnalysisResult where
  provider : String
  response : String
  structured_data : Option JVal
  processing_time_ms : Nat
  confidence : Option Int
  error : Option String

/-- The MoondreamManager configuration (moondream_manager.rs lines 8-13):
the HTTP client itself carries no claim-relevant state. -/
structure MoondreamMgr where
  api_key : String
  base_url : String

/-- MoondreamManager::new (moondream_manager.rs lines 83-95). -/
def MoondreamMgr.new (api_key : String) : MoondreamMgr :=
  { api_key := api_key, base_url := "https://api.moondream.ai/v1" }

/-- Environment of one Moondream HTTP call: the send outcome (transport
error message, or success flag with status text and optional body text),
and the elapsed wall-clock milliseconds observed by the call. -/
structure HttpEnv where
  send : Except String (Bool × String × Option String)
  elapsedMs : Nat

/-- Model of text.find of a left brace: index of the first occurrence. -/
def firstBrace (t : String) : Option Nat :=
  t.toList.indexOf? lbraceCh

/-- Model of text.rfind of a right brace: index of the last occurrence. -/
def lastBrace (t : String) : Option Nat :=
  (t.toList.reverse.indexOf? rbraceCh).map (fun i => t.toList.length - 1 - i)

/-- The inclusive slice text[s..=e]. -/
def braceSlice (t : String) (s e : Nat) : String :=
  String.mk ((t.toList.drop s).take (e - s + 1))

/-- MoondreamManager::try_parse_structured (moondream_manager.rs lines
366-381): slice the reply from the first left brace to the last right
brace and return the parse when that slice is valid JSON. -/
def try_parse_structured (text : String) : Option JVal :=
  match firstBrace text, lastBrace text with
  | some s, some e =>
    if e > s then
      match parseJson (braceSlice text s e) with
      | some parsed => some parsed
      | none => none
    else none
  | _, _ => none

/-- MoondreamManager::query (moondream_manager.rs lines 98-158). Send
failure is a hard error; a non-success status yields a soft result with
the error field set; a success status parses the body as JSON (hard
error when that fails) and extracts answer, embedded structured data and
confidence. -/
def query (env : HttpEnv) : Except String AnalysisResult :=
  match env.send with
  | Except.error e => Except.error ("Moondream request failed: " ++ e)
  | Except.ok (success, statusText, body) =>
    if success then
      match parseJson (body.getD "") with
      | none => Except.error "Failed to parse Moondream response"
      | some result =>
        let answer := (jStr (jGet result "answer")).getD ""
        Except.ok
          { provider := "moondream", response := answer
            structured_data := try_parse_structured answer
            processing_time_ms := env.elapsedMs
            confidence := jNumQ (jGet result "confidence"), error := none }
    else
      Except.ok
        { provider := "moondream", response := ""
          structured_data := none, processing_time_ms := env.elapsedMs
          confidence := none
          error := some ("API error " ++ statusText ++ ": " ++ body.getD "") }

/-- MoondreamManager::caption (moondream_manager.rs lines 161-215). The
length parameter defaults to normal and only shapes the request. -/
def caption (env : HttpEnv) : Except String AnalysisResult :=
  match env.send with
  | Except.error e => Except.error ("Moondream caption request failed: " ++ e)
  | Except.ok (success, statusText, body) =>
    if success then
      match parseJson (body.getD "") with
      | none => Except.error "Failed to parse caption response"
      | some result =>
        Except.ok
          { provider := "moondream"
            response := (jStr (jGet result "caption")).getD ""
            structured_data := none, processing_time_ms := env.elapsedMs
            confidence := none, error := none }
    else
      Except.ok
        { provider := "moondream", response := ""
          structured_data := none, processing_time_ms := env.elapsedMs
          confidence := none
          error := some ("Caption API error: " ++ statusText) }

/-- MoondreamManager::detect (moondream_manager.rs lines 218-270). -/
def detect (env : HttpEnv) : Except String AnalysisResult :=
  match env.send with
  | Except.error e => Except.error ("Moondream detect request failed: " ++ e)
  | Except.ok (success, statusText, body) =>
    if success then
      match parseJson (body.getD "") with
      | none => Except.error "Failed to parse detect response"
      | some result =>
        let objects_data := jGet result "objects"
        Except.ok
          { provider := "moondream"
            response := "Detected objects: " ++ fmtDebug objects_data
            structured_data := some (JVal.obj [("objects", objects_data)])
            processing_time_ms := env.elapsedMs
            confidence := none, error := none }
    else
      Except.ok
        { provider := "moondream", response := ""
          structured_data := none, processing_time_ms := env.elapsedMs
          confidence := none
          error := some ("Detect API error: " ++ statusText) }

/-- MoondreamManager::point (moondream_manager.rs lines 273-325). -/
def point (env : HttpEnv) : Except String AnalysisResult :=
  match env.send with
  | Except.error e => Except.error ("Moondream point request failed: " ++ e)
  | Except.ok (success, statusText, body) =>
    if success then
      match parseJson (body.getD "") with
      | none => Except.error "Failed to parse point response"
      | some result =>
        Except.ok
          { provider := "moondream"
            response := "Object coordinates: " ++ fmtDebug result
            structured_data := some result
            processing_time_ms := env.elapsedMs
            confidence := none, error := none }
    else
      Except.ok
        { provider := "moondream", response := ""
          structured_data := none, processing_time_ms := env.elapsedMs
          confidence := none
          error := some ("Point API error: " ++ statusText) }

/-- The fixed status object returned by MoondreamManager::check_status. -/
structure MoonStatus where
  provider : String
  status : String
  base_url : String
  has_api_key : Bool

/-- MoondreamManager::check_status (moondream_manager.rs lines 384-393):
no network probe, always Ok, has_api_key reflects a non-empty key. -/
def MoondreamMgr.check_status (m : MoondreamMgr) : Except String MoonStatus :=
  Except.ok
    { provider := "moondream", status := "ready", base_url := m.base_url
      has_api_key := !m.api_key.isEmpty }

/-! ## lib.rs -/

/-- AnalyzeResponse (lib.rs lines 26-30). -/
structure AnalyzeResponse where
  description : String
  error : Option String

/-- Environment of one local-backend (Ollama) inference call: the
catalog-probe outcome fed to the readiness gate, the HTTP client
construction outcome, and the send outcome to /api/generate (transport
error, or success flag with status text and optional body text). -/
structure OllamaCallEnv where
  probe : TagsProbe
  clientBuild : Except String Unit
  send : Except String (Bool × String × Option String)

/-- analyze_image (lib.rs lines 56-142). The readiness gate returns a
soft not-ready result; a non-success status is also soft; transport,
body-read and parse failures on the success path are hard errors. -/
def analyze_image (promptOpt : Option String) (env : OllamaCallEnv) :
    Except String AnalyzeResponse :=
  let status := check_status env.probe
  if !status.running || !status.model_ready then
    Except.ok { description := "", error := some "Ollama not ready" }
  else
    match env.clientBuild with
    | Except.error e => Except.error ("Failed to create HTTP client: " ++ e)
    | Except.ok _ =>
      let _prompt := promptOpt.getD
        "Describe what you see in this image in 2-3 sentences. Focus on the main subjects and activities."
      match env.send with
      | Except.error e => Except.error ("Failed to analyze image: " ++ e)
      | Except.ok (success, statusText, body) =>
        if !success then
          Except.ok
            { description := ""
              error := some ("Analysis failed: " ++ statusText ++ " - " ++ body.getD "") }
        else
          match body with
          | none => Except.error "Failed to read response"
          | some txt =>
            match parseJson txt with
            | none => Except.error "Failed to parse response"
            | some result =>
              Except.ok
                { description := (jStr (jGet result "response")).getD "No description available"
                  error := none }

/-- analyze_with_llava (lib.rs lines 164-224). The readiness gate, the
transport failure, the non-success status and the parse failure are all
hard errors here; on success the reply text is itself re-parsed as JSON
and returned when it parses, the whole envelope otherwise. -/
def analyze_with_llava (env : OllamaCallEnv) : Except String JVal :=
  let status := check_status env.probe
  if !status.running || !status.model_ready then
    Except.error "Ollama not ready"
  else
    match env.clientBuild with
    | Except.error e => Except.error ("Failed to create HTTP client: " ++ e)
    | Except.ok _ =>
      match env.send with
      | Except.error e => Except.error ("Failed to analyze: " ++ e)
      | Except.ok (success, statusText, body) =>
        if !success then
          Except.error ("Analysis failed: " ++ statusText)
        else
          match parseJson (body.getD "") with
          | none => Except.error "Failed to parse response"
          | some result =>
            match jStr (jGet result "response") with
            | some t =>
              match parseJson t with
              | some j => Except.ok j
              | none => Except.ok result
            | none => Except.ok result

/-- One provider-tagged entry of the A/B comparison report, as built by
the internal wrapper functions in lib.rs. -/
structure Tagged (α : Type) where
  success : Bool
  result : Option α
  error : Option String
  provider : String

/-- analyze_with_llava_internal (lib.rs lines 321-338): run the LLaVA
pipeline and tag its outcome, converting a hard error into a tagged
failure entry. -/
def analyze_with_llava_internal (env : OllamaCallEnv) : Tagged JVal :=
  match analyze_with_llava env with
  | Except.ok r => { success := true, result := some r, error := none, provider := "llava" }
  | Except.error e => { success := false, result := none, error := some e, provider := "llava" }

/-- analyze_with_moondream_internal (lib.rs lines 340-357): run the
Moondream query and tag its outcome. -/
def analyze_with_moondream_internal (env : HttpEnv) : Tagged AnalysisResult :=
  match query env with
  | Except.ok r => { success := true, result := some r, error := none, provider := "moondream" }
  | Except.error e => { success := false, result := none, error := some e, provider := "moondream" }

/-- The A/B comparison report envelope built by analyze_ab_test. -/
structure ABReport where
  timestamp : String
  llava : Tagged JVal
  moondream : Tagged AnalysisResult
  total_comparison_time_ms : Nat
  test_id : String

/-- analyze_ab_test (lib.rs lines 293-318): dispatch to both providers,
wait for both, and assemble the report. The timestamp, total elapsed
time, and freshly generated test id are environment inputs. -/
def analyze_ab_test (llavaEnv : OllamaCallEnv) (moonEnv : HttpEnv)
    (timestamp : String) (totalMs : Nat) (testId : String) :
    Except String ABReport :=
  Except.ok
    { timestamp := timestamp
      llava := analyze_with_llava_internal llavaEnv
      moondream := analyze_with_moondream_internal moonEnv
      total_comparison_time_ms := totalMs
      test_id := testId }

/-! ## Helper lemmas -/

/-- Any single start call spawns at most one process. -/
theorem start_spawned_le_one (st : OllamaMgr) (e : StartEnv) :
    (start st e).spawned ≤ 1 := by
  unfold start
  rcases st with ⟨_ | p⟩
  · by_cases hb : e.versionProbeOk
    · simp [hb]
    · simp only [hb]
      rcases e.download with _ | _
      · simp
      · rcases e.mkdirModels with _ | _
        · simp
        · rcases e.spawn with _ | pid <;> simp
  · simp

/-- When a start call spawns, the resulting state holds a handle. -/
theorem start_spawned_handle (st : OllamaMgr) (e : StartEnv) :
    (start st e).spawned = 1 → ∃ p, (start st e).state.process = some p := by
  unfold start
  rcases st with ⟨_ | p⟩
  · by_cases hb : e.versionProbeOk
    · simp [hb]
    · simp only [hb]
      rcases e.download with _ | _
      · simp
      · rcases e.mkdirModels with _ | _
        · simp
        · rcases e.spawn with _ | pid <;> simp
  · simp

/-- A held handle makes start a no-op success. -/
theorem start_held_noop (st : OllamaMgr) (e : StartEnv) (p : Nat)
    (hp : st.process = some p) :
    start st e = { result := Except.ok (), state := st, spawned := 0 } := by
  unfold start
  rw [hp]

/-! ## Claim theorems -/

/-- Claim C1: start never spawns a second server process when the
requirement is already satisfied. With a handle held it returns success
at once without spawning; with the liveness probe succeeding it returns
success without spawning; and two consecutive start calls without an
intervening stop spawn at most one process in total. -/
theorem C1_start_at_most_one_spawn (st : OllamaMgr) (e1 e2 : StartEnv) :
    (∀ p, st.process = some p →
      start st e1 = { result := Except.ok (), state := st, spawned := 0 })
    ∧ (st.process = none → e1.versionProbeOk = true →
      start st e1 = { result := Except.ok (), state := st, spawned := 0 })
    ∧ (start st e1).spawned + (start (start st e1).state e2).spawned ≤ 1 := by
  refine ⟨fun p hp => start_held_noop st e1 p hp, ?_, ?_⟩
  · intro hnone hb
    unfold start
    rw [hnone]
    simp [hb]
  · have h1 := start_spawned_le_one st e1
    have h2 := start_spawned_le_one (start st e1).state e2
    rcases Nat.lt_or_ge (start st e1).spawned 1 with hlt | hge
    · omega
    · have hone : (start st e1).spawned = 1 := le_antisymm h1 hge
      rcases start_spawned_handle st e1 hone with ⟨p, hp⟩
      have h3 : (start (start st e1).state e2).spawned = 0 := by
        rw [start_held_noop (start st e1).state e2 p hp]
      omega

/-- Witness for C1 at concrete inputs: a held handle is a no-op success,
a successful probe avoids the spawn, and a spawning first call followed
by a second call still spawns at most once in total. -/
theorem C1_witness :
    (start { process := some 7 }
        { versionProbeOk := false, download := Except.ok ()
          mkdirModels := Except.ok (), spawn := Except.ok 9 } =
      { result := Except.ok (), state := { process := some 7 }, spawned := 0 })
    ∧ (start { process := none }
        { versionProbeOk := true, download := Except.ok ()
          mkdirModels := Except.ok (), spawn := Except.ok 9 } =
      { result := Except.ok (), state := { process := none }, spawned := 0 })
    ∧ ((start { process := none }
        { versionProbeOk := false, download := Except.ok ()
          mkdirModels := Except.ok (), spawn := Except.ok 9 }).spawned +
       (start (start { process := none }
        { versionProbeOk := false, download := Except.ok ()
          mkdirModels := Except.ok (), spawn := Except.ok 9 }).state
        { versionProbeOk := false, download := Except.ok ()
          mkdirModels := Except.ok (), spawn := Except.ok 9 }).spawned ≤ 1) :=
  ⟨(C1_start_at_most_one_spawn { process := some 7 }
      { versionProbeOk := false, download := Except.ok ()
        mkdirModels := Except.ok (), spawn := Except.ok 9 }
      { versionProbeOk := false, download := Except.ok ()
        mkdirModels := Except.ok (), spawn := Except.ok 9 }).1 7 rfl,
   (C1_start_at_most_one_spawn { process := none }
      { versionProbeOk := true, download := Except.ok ()
        mkdirModels := Except.ok (), spawn := Except.ok 9 }
      { versionProbeOk := true, download := Except.ok ()
        mkdirModels := Except.ok (), spawn := Except.ok 9 }).2.1 rfl rfl,
   (C1_start_at_most_one_spawn { process := none }
      { versionProbeOk := false, download := Except.ok ()
        mkdirModels := Except.ok (), spawn := Except.ok 9 }
      { versionProbeOk := false, download := Except.ok ()
        mkdirModels := Except.ok (), spawn := Except.ok 9 }).2.2⟩

/-- Claim C9: start is atomic on failure. Whenever start returns an
error, the supervisor handle is still unset and the state is exactly the
state before the call. -/
theorem C9_start_atomic_on_failure (st : OllamaMgr) (e : StartEnv) (msg : String)
    (h : (start st e).result = Except.error msg) :
    (start st e).state = st ∧ st.process = none := by
  rcases e with ⟨vb, dl, mk, sp⟩
  rcases st with ⟨_ | p⟩
  · cases vb
    · rcases dl with _ | _
      · exact ⟨rfl, rfl⟩
      · rcases mk with _ | _
        · exact ⟨rfl, rfl⟩
        · rcases sp with _ | pid
          · exact ⟨rfl, rfl⟩
          · simp [start] at h
    · simp [start] at h
  · simp [start] at h

/-- Witness for C9 at a concrete failing spawn. -/
theorem C9_witness :
    (start { process := none }
      { versionProbeOk := false, download := Except.ok ()
        mkdirModels := Except.ok (), spawn := Except.error "boom" }).state =
      { process := none }
    ∧ (OllamaMgr.mk none).process = none :=
  C9_start_atomic_on_failure { process := none }
    { versionProbeOk := false, download := Except.ok ()
      mkdirModels := Except.ok (), spawn := Except.error "boom" }
    "Failed to start Ollama: boom" rfl

/-- Claim C4: every status snapshot satisfies the error discipline. The
error field is set exactly when running is false: check_status always
classifies model readiness on a success response (an unreadable body is
defaulted to the empty catalog), so the malformed-response disjunct of
the claim never fires and the biconditional reduces to running=false.
On a transport failure the snapshot is running=false, modelReady=false
with a non-empty error. -/
theorem C4_error_iff_not_running (r : TagsProbe) (e : String) :
    ((check_status r).error.isSome = true ↔ (check_status r).running = false)
    ∧ (check_status (TagsProbe.err e)).running = false
    ∧ (check_status (TagsProbe.err e)).model_ready = false
    ∧ (check_status (TagsProbe.err e)).error.isSome = true
    ∧ 0 < ((check_status (TagsProbe.err e)).error.getD "").length := by
  refine ⟨?_, rfl, rfl, rfl, ?_⟩
  · cases r with
    | err e2 => simp [check_status]
    | resp succ statusText body => cases succ <;> simp [check_status]
  · show 0 < ("Ollama server not responding: " ++ e).length
    rw [String.length_append]
    have h30 : ("Ollama server not responding: " : String).length = 30 := rfl
    omega

/-- Witness for C4 at a concrete timeout-style transport failure. -/
theorem C4_witness :
    (((check_status (TagsProbe.err "operation timed out")).error.isSome = true ↔
        (check_status (TagsProbe.err "operation timed out")).running = false)
      ∧ (check_status (TagsProbe.err "operation timed out")).running = false
      ∧ (check_status (TagsProbe.err "operation timed out")).model_ready = false
      ∧ (check_status (TagsProbe.err "operation timed out")).error.isSome = true
      ∧ 0 < ((check_status (TagsProbe.err "operation timed out")).error.getD "").length) :=
  C4_error_iff_not_running (TagsProbe.err "operation timed out") "operation timed out"

/-- Claim C5: on a success catalog response, modelReady is true exactly
when the body contains one of the accepted markers; on a transport
failure or a non-success status, modelReady is false. -/
theorem C5_model_ready_iff_marker (body statusText e : String)
    (optBody : Option String) :
    ((check_status (TagsProbe.resp true statusText (some body))).model_ready = true ↔
      (strContains body "llava:7b" = true ∨ strContains body "llava:" = true ∨
       strContains body "llama3.2-vision" = true))
    ∧ (check_status (TagsProbe.err e)).model_ready = false
    ∧ (check_status (TagsProbe.resp false statusText optBody)).model_ready = false := by
  refine ⟨?_, rfl, by simp [check_status]⟩
  simp [check_status, Bool.or_eq_true]
  tauto

/-- Witness for C5 on a concrete catalog body listing the llava model. -/
theorem C5_witness :
    (((check_status (TagsProbe.resp true "200 OK"
          (some "models: llava:7b, nomic-embed"))).model_ready = true ↔
        (strContains "models: llava:7b, nomic-embed" "llava:7b" = true ∨
         strContains "models: llava:7b, nomic-embed" "llava:" = true ∨
         strContains "models: llava:7b, nomic-embed" "llama3.2-vision" = true))
      ∧ (check_status (TagsProbe.err "refused")).model_ready = false
      ∧ (check_status (TagsProbe.resp false "200 OK" (some "x"))).model_ready = false) :=
  C5_model_ready_iff_marker "models: llava:7b, nomic-embed" "200 OK" "refused" (some "x")

/-- Claim C10: the cloud provider status check performs no probe and
never fails: it always returns Ok with status ready, and has_api_key is
true exactly when the configured key is non-empty. -/
theorem C10_moondream_status_pure (k : String) :
    (MoondreamMgr.new k).check_status = Except.ok
      { provider := "moondream", status := "ready"
        base_url := "https://api.moondream.ai/v1", has_api_key := !k.isEmpty }
    ∧ ((!k.isEmpty) = true ↔ k ≠ "") := by
  refine ⟨rfl, ?_⟩
  rw [Bool.not_eq_true', ← Bool.not_eq_true]
  exact not_congr (String.isEmpty_iff k)

/-- Witness for C10 at a concrete non-empty API key. -/
theorem C10_witness :
    (MoondreamMgr.new "md-key-123").check_status = Except.ok
      { provider := "moondream", status := "ready"
        base_url := "https://api.moondream.ai/v1"
        has_api_key := !("md-key-123" : String).isEmpty }
    ∧ ((!("md-key-123" : String).isEmpty) = true ↔ ("md-key-123" : String) ≠ "") :=
  C10_moondream_status_pure "md-key-123"

/-- Counterexample to claim C3: with the readiness gate failing (probe
transport failure), analyze_with_llava raises a hard error instead of
returning a result object whose error field carries the not-ready
message, so the claim does not hold for every local-backend entry
point. -/
theorem C3_counterexample :
    analyze_with_llava
      { probe := TagsProbe.err "connection refused"
        clientBuild := Except.ok ()
        send := Except.ok (true, "200 OK", some "") } =
      Except.error "Ollama not ready" := rfl

/-- Claim C3 as amended: when the readiness gate reports not running or
model not ready, analyze_image returns a soft result with the fixed
message Ollama not ready without attempting the backend call, while
analyze_with_llava returns the hard error Ollama not ready, likewise
without attempting the backend call (the conclusion is the same for
every client-build and send outcome). -/
theorem C3_amended_gate (promptOpt : Option String) (probe : TagsProbe)
    (cb cb2 : Except String Unit)
    (snd snd2 : Except String (Bool × String × Option String))
    (h : (check_status probe).running = false ∨
         (check_status probe).model_ready = false) :
    analyze_image promptOpt { probe := probe, clientBuild := cb, send := snd } =
      Except.ok { description := "", error := some "Ollama not ready" }
    ∧ analyze_with_llava { probe := probe, clientBuild := cb2, send := snd2 } =
      Except.error "Ollama not ready" := by
  have hgate : (!(check_status probe).running ||
      !(check_status probe).model_ready) = true := by
    rcases h with h | h <;> simp [h]
  constructor
  · simp [analyze_image, hgate]
  · simp [analyze_with_llava, hgate]

/-- Witness for the amended C3 at a concrete not-running probe. -/
theorem C3_witness :
    analyze_image none
      { probe := TagsProbe.err "timeout", clientBuild := Except.ok ()
        send := Except.ok (true, "200 OK", some "") } =
      Except.ok { description := "", error := some "Ollama not ready" }
    ∧ analyze_with_llava
      { probe := TagsProbe.err "timeout", clientBuild := Except.ok ()
        send := Except.ok (true, "200 OK", some "") } =
      Except.error "Ollama not ready" :=
  C3_amended_gate none (TagsProbe.err "timeout") (Except.ok ()) (Except.ok ())
    (Except.ok (true, "200 OK", some "")) (Except.ok (true, "200 OK", some ""))
    (Or.inl rfl)

/-- Claim C2: analyze_ab_test never raises and always assembles a report
holding exactly the two provider-tagged entries: the report is the Ok
value built from the two tagged outcomes, each entry carries its
provider identifier, a failed call appears as success=false with its
error recorded, and a succeeding call appears as success=true without
error. -/
theorem C2_ab_test_two_tagged_results (llavaEnv : OllamaCallEnv)
    (moonEnv : HttpEnv) (ts tid : String) (total : Nat) :
    analyze_ab_test llavaEnv moonEnv ts total tid = Except.ok
      { timestamp := ts, llava := analyze_with_llava_internal llavaEnv
        moondream := analyze_with_moondream_internal moonEnv
        total_comparison_time_ms := total, test_id := tid }
    ∧ (analyze_with_llava_internal llavaEnv).provider = "llava"
    ∧ (analyze_with_moondream_internal moonEnv).provider = "moondream"
    ∧ (∀ e, analyze_with_llava llavaEnv = Except.error e →
        analyze_with_llava_internal llavaEnv =
          { success := false, result := none, error := some e, provider := "llava" })
    ∧ (∀ v, analyze_with_llava llavaEnv = Except.ok v →
        analyze_with_llava_internal llavaEnv =
          { success := true, result := some v, error := none, provider := "llava" })
    ∧ (∀ e, query moonEnv = Except.error e →
        analyze_with_moondream_internal moonEnv =
          { success := false, result := none, error := some e, provider := "moondream" })
    ∧ (∀ r, query moonEnv = Except.ok r →
        analyze_with_moondream_internal moonEnv =
          { success := true, result := some r, error := none, provider := "moondream" }) := by
  refine ⟨rfl, ?_, ?_, ?_, ?_, ?_, ?_⟩
  · unfold analyze_with_llava_internal
    cases analyze_with_llava llavaEnv <;> rfl
  · unfold analyze_with_moondream_internal
    cases query moonEnv <;> rfl
  · intro e he
    unfold analyze_with_llava_internal
    rw [he]
  · intro v hv
    unfold analyze_with_llava_internal
    rw [hv]
  · intro e he
    unfold analyze_with_moondream_internal
    rw [he]
  · intro r hr
    unfold analyze_with_moondream_internal
    rw [hr]

/-- Witness for C2: a failing llava branch (gate not ready) is tagged
with its error and success=false, while a moondream branch whose backend
answered a non-success status is tagged success=true carrying the soft
result, and the whole report is assembled. -/
theorem C2_witness :
    analyze_with_llava_internal
      { probe := TagsProbe.err "refused", clientBuild := Except.ok ()
        send := Except.ok (true, "200", none) } =
      { success := false, result := none, error := some "Ollama not ready"
        provider := "llava" }
    ∧ analyze_with_moondream_internal
      { send := Except.ok (false, "500 Internal Server Error", none), elapsedMs := 7 } =
      { success := true
        result := some
          { provider := "moondream", response := "", structured_data := none
            processing_time_ms := 7, confidence := none
            error := some "API error 500 Internal Server Error: " }
        error := none, provider := "moondream" } :=
  ⟨(C2_ab_test_two_tagged_results
      { probe := TagsProbe.err "refused", clientBuild := Except.ok ()
        send := Except.ok (true, "200", none) }
      { send := Except.ok (false, "500 Internal Server Error", none), elapsedMs := 7 }
      "ts" "id" 0).2.2.2.1 "Ollama not ready" rfl,
   (C2_ab_test_two_tagged_results
      { probe := TagsProbe.err "refused", clientBuild := Except.ok ()
        send := Except.ok (true, "200", none) }
      { send := Except.ok (false, "500 Internal Server Error", none), elapsedMs := 7 }
      "ts" "id" 0).2.2.2.2.2.2 _ rfl⟩

/-- A provider-client outcome that is a soft failure: the call returns
Ok and the error field of the result is set. -/
def softFail (x : Except String AnalysisResult) : Prop :=
  ∃ r, x = Except.ok r ∧ r.error.isSome = true

/-- A provider-client outcome that is a hard failure: the call raises. -/
def hardFail (x : Except String AnalysisResult) : Prop :=
  ∃ e, x = Except.error e

/-- A provider-client outcome that succeeded with no error recorded. -/
def cleanOk (x : Except String AnalysisResult) : Prop :=
  ∃ r, x = Except.ok r ∧ r.error = none

/-- Counterexample to claim C6: a success HTTP status whose body is not
parseable JSON makes query raise a hard error instead of capturing the
malformed response inside the error field of an AnalysisResult. -/
theorem C6_counterexample :
    query { send := Except.ok (true, "200 OK", some "not json"), elapsedMs := 7 } =
      Except.error "Failed to parse Moondream response" := rfl

/-- Claim C6 as amended: across all four provider-client operations, a
backend non-success HTTP status is a soft failure captured inside the
error field, while a transport send failure and a malformed/unparseable
response body are raised as hard errors; a parseable success response
yields a result with no error recorded. -/
theorem C6_amended_failure_tiers (env : HttpEnv) :
    (∀ stx b, env.send = Except.ok (false, stx, b) →
      softFail (query env) ∧ softFail (caption env) ∧
      softFail (detect env) ∧ softFail (point env))
    ∧ (∀ e, env.send = Except.error e →
      hardFail (query env) ∧ hardFail (caption env) ∧
      hardFail (detect env) ∧ hardFail (point env))
    ∧ (∀ stx b, env.send = Except.ok (true, stx, b) →
        parseJson (b.getD "") = none →
      hardFail (query env) ∧ hardFail (caption env) ∧
      hardFail (detect env) ∧ hardFail (point env))
    ∧ (∀ stx b v, env.send = Except.ok (true, stx, b) →
        parseJson (b.getD "") = some v →
      cleanOk (query env) ∧ cleanOk (caption env) ∧
      cleanOk (detect env) ∧ cleanOk (point env)) := by
  refine ⟨?_, ?_, ?_, ?_⟩
  · intro stx b h
    have hq : query env = Except.ok
        { provider := "moondream", response := "", structured_data := none
          processing_time_ms := env.elapsedMs, confidence := none
          error := some ("API error " ++ stx ++ ": " ++ b.getD "") } := by
      simp [query, h]
    have hc : caption env = Except.ok
        { provider := "moondream", response := "", structured_data := none
          processing_time_ms := env.elapsedMs, confidence := none
          error := some ("Caption API error: " ++ stx) } := by
      simp [caption, h]
    have hd : detect env = Except.ok
        { provider := "moondream", response := "", structured_data := none
          processing_time_ms := env.elapsedMs, confidence := none
          error := some ("Detect API error: " ++ stx) } := by
      simp [detect, h]
    have hp : point env = Except.ok
        { provider := "moondream", response := "", structured_data := none
          processing_time_ms := env.elapsedMs, confidence := none
          error := some ("Point API error: " ++ stx) } := by
      simp [point, h]
    exact ⟨⟨_, hq, rfl⟩, ⟨_, hc, rfl⟩, ⟨_, hd, rfl⟩, ⟨_, hp, rfl⟩⟩
  · intro e h
    refine ⟨⟨"Moondream request failed: " ++ e, ?_⟩,
      ⟨"Moondream caption request failed: " ++ e, ?_⟩,
      ⟨"Moondream detect request failed: " ++ e, ?_⟩,
      ⟨"Moondream point request failed: " ++ e, ?_⟩⟩
    · simp [query, h]
    · simp [caption, h]
    · simp [detect, h]
    · simp [point, h]
  · intro stx b h hparse
    refine ⟨⟨"Failed to parse Moondream response", ?_⟩,
      ⟨"Failed to parse caption response", ?_⟩,
      ⟨"Failed to parse detect response", ?_⟩,
      ⟨"Failed to parse point response", ?_⟩⟩
    · simp [query, h, hparse]
    · simp [caption, h, hparse]
    · simp [detect, h, hparse]
    · simp [point, h, hparse]
  · intro stx b v h hparse
    have hq : query env = Except.ok
        { provider := "moondream", response := (jStr (jGet v "answer")).getD ""
          structured_data := try_parse_structured ((jStr (jGet v "answer")).getD "")
          processing_time_ms := env.elapsedMs
          confidence := jNumQ (jGet v "confidence"), error := none } := by
      simp [query, h, hparse]
    have hc : caption env = Except.ok
        { provider := "moondream", response := (jStr (jGet v "caption")).getD ""
          structured_data := none, processing_time_ms := env.elapsedMs
          confidence := none, error := none } := by
      simp [caption, h, hparse]
    have hd : detect env = Except.ok
        { provider := "moondream"
          response := "Detected objects: " ++ fmtDebug (jGet v "objects")
          structured_data := some (JVal.obj [("objects", jGet v "objects")])
          processing_time_ms := env.elapsedMs
          confidence := none, error := none } := by
      simp [detect, h, hparse]
    have hp : point env = Except.ok
        { provider := "moondream"
          response := "Object coordinates: " ++ fmtDebug v
          structured_data := some v, processing_time_ms := env.elapsedMs
          confidence := none, error := none } := by
      simp [point, h, hparse]
    exact ⟨⟨_, hq, rfl⟩, ⟨_, hc, rfl⟩, ⟨_, hd, rfl⟩, ⟨_, hp, rfl⟩⟩

/-- Witness for the amended C6 at a concrete non-success response. -/
theorem C6_witness :
    softFail (query { send := Except.ok (false, "503 Service Unavailable", none), elapsedMs := 3 })
    ∧ softFail (caption { send := Except.ok (false, "503 Service Unavailable", none), elapsedMs := 3 })
    ∧ softFail (detect { send := Except.ok (false, "503 Service Unavailable", none), elapsedMs := 3 })
    ∧ softFail (point { send := Except.ok (false, "503 Service Unavailable", none), elapsedMs := 3 }) :=
  (C6_amended_failure_tiers
    { send := Except.ok (false, "503 Service Unavailable", none), elapsedMs := 3 }).1
    "503 Service Unavailable" none rfl

/-- The exclusivity predicate of claim C7 over a provider-client
outcome: whenever the call returns a result whose error field is set,
the response text is empty and the structured data is absent. -/
def exclusiveRes : Except String AnalysisResult → Prop
  | Except.error _ => True
  | Except.ok r => r.error.isSome = true → r.response = "" ∧ r.structured_data = none

/-- Claim C7: every AnalysisResult produced by query, caption, detect or
point satisfies the exclusivity invariant: an error entails an empty
response and absent structured data; no result carries both. -/
theorem C7_error_exclusivity (env : HttpEnv) :
    exclusiveRes (query env) ∧ exclusiveRes (caption env) ∧
    exclusiveRes (detect env) ∧ exclusiveRes (point env) := by
  rcases henv : env.send with e | ⟨succ, stx, b⟩
  · simp [query, caption, detect, point, henv, exclusiveRes]
  · cases succ
    · simp [query, caption, detect, point, henv, exclusiveRes]
    · rcases hparse : parseJson (b.getD "") with _ | v <;>
        simp [query, caption, detect, point, henv, hparse, exclusiveRes]

/-- Witness for C7 at a concrete non-success response, where the error
field is in fact set and the invariant is checked concretely. -/
theorem C7_witness :
    exclusiveRes (query { send := Except.ok (false, "500", some "oops"), elapsedMs := 2 })
    ∧ exclusiveRes (caption { send := Except.ok (false, "500", some "oops"), elapsedMs := 2 })
    ∧ exclusiveRes (detect { send := Except.ok (false, "500", some "oops"), elapsedMs := 2 })
    ∧ exclusiveRes (point { send := Except.ok (false, "500", some "oops"), elapsedMs := 2 }) :=
  C7_error_exclusivity { send := Except.ok (false, "500", some "oops"), elapsedMs := 2 }

/-- Claim C8: the embedded-JSON extraction slices the reply from the
first left brace to the last right brace and returns exactly the parse
of that slice when it is valid JSON (and nothing otherwise); a reply
whose only braces delimit an embedded object such as one binding a to 1
yields that object, and a reply with no braces yields no structured
data. -/
theorem C8_embedded_json_extraction :
    (∀ t s e, firstBrace t = some s → lastBrace t = some e → e > s →
      try_parse_structured t = parseJson (braceSlice t s e))
    ∧ (∀ t, firstBrace t = none → try_parse_structured t = none)
    ∧ (∀ t, lastBrace t = none → try_parse_structured t = none)
    ∧ try_parse_structured "Here is the analysis: \x7b\"a\":1\x7d" =
        some (JVal.obj [("a", JVal.num 1)])
    ∧ try_parse_structured "no braces at all" = none := by
  refine ⟨?_, ?_, ?_, rfl, rfl⟩
  · intro t s e hf hl hgt
    unfold try_parse_structured
    rw [hf, hl]
    dsimp only
    rw [if_pos hgt]
    cases parseJson (braceSlice t s e) <;> rfl
  · intro t hf
    unfold try_parse_structured
    rw [hf]
  · intro t hl
    unfold try_parse_structured
    rw [hl]
    rcases firstBrace t with _ | s <;> rfl

/-- Witness for C8: at a concrete reply the extraction agrees with the
parse of the first-brace-to-last-brace slice. -/
theorem C8_witness :
    try_parse_structured "ab\x7btrue\x7d" =
      parseJson (braceSlice "ab\x7btrue\x7d" 2 7) :=
  C8_embedded_json_extraction.1 "ab\x7btrue\x7d" 2 7 rfl rfl (by decide)

end LiveVision
